import Mathlib

/-!
Shallow embedding of `enviroplus_api.py` and `enviroplus_exporter.py`
(bcastellano/enviroplus_exporter).

Python floats are modelled as rationals.  Side effects of a call (log
lines written and invocations of `reset_i2c`) are collected in an
`Effects` record.  The outcome of each underlying vendor-driver call
(which can raise `IOError`, and for the PMS5003 also
`ReadTimeoutError`) is passed in explicitly, since the drivers
themselves are external to the repository.
-/

/-- Severity of a log line (`logging.error` / `logging.warning` / `logging.info`). -/
inductive LogLevel
  | error
  | warning
  | info
deriving DecidableEq, Repr

/-- One log line: its severity and message. -/
structure LogEntry where
  level : LogLevel
  msg : String
deriving DecidableEq, Repr

/-- Observable side effects of a sensor-access call: the log lines it
wrote (in order) and how many times it invoked `reset_i2c`
(`enviroplus_api.py` lines 34-36: `i2cdetect` scan plus 2-second sleep). -/
structure Effects where
  logs : List LogEntry
  resets : Nat
deriving DecidableEq, Repr

def Effects.empty : Effects := ⟨[], 0⟩

/-- `reset_i2c()` as an effect: one more invocation of the reset routine. -/
def reset_i2c (e : Effects) : Effects := { e with resets := e.resets + 1 }

/-- `logging.error(m)` as an effect. -/
def logError (m : String) (e : Effects) : Effects :=
  { e with logs := e.logs ++ [⟨LogLevel.error, m⟩] }

/-- `logging.warning(m)` as an effect. -/
def logWarning (m : String) (e : Effects) : Effects :=
  { e with logs := e.logs ++ [⟨LogLevel.warning, m⟩] }

/-- Outcome of one bus-level driver call: a value, or an `IOError`. -/
inductive BusResult (α : Type)
  | ok (v : α)
  | ioError
deriving DecidableEq, Repr

/-- Gas reading record returned by `gas.read_all()`. -/
structure GasReadings where
  oxidising : ℚ
  reducing : ℚ
  nh3 : ℚ
deriving DecidableEq, Repr

/-- Light reading dict `\x7b "lux": lux, "prox": prox \x7d` built by `get_light`. -/
structure LightReadings where
  lux : ℚ
  prox : ℚ
deriving DecidableEq, Repr

/-- Particulate reading; field `i` models `pms_data.pm_ug_per_m3(i)`. -/
structure PmsData where
  pm1 : ℚ
  pm25 : ℚ
  pm10 : ℚ
deriving DecidableEq, Repr

/-- `get_pressure` (`enviroplus_api.py` lines 64-71): try the driver
call; on `IOError` log one error line, reset the bus, and fall off the
function (returning `None`). -/
def get_pressure (r : BusResult ℚ) : Option ℚ × Effects :=
  match r with
  | .ok v => (some v, Effects.empty)
  | .ioError =>
      (none, reset_i2c (logError "Could not get pressure readings. Resetting i2c." Effects.empty))

/-- `get_humidity` (`enviroplus_api.py` lines 73-80). -/
def get_humidity (r : BusResult ℚ) : Option ℚ × Effects :=
  match r with
  | .ok v => (some v, Effects.empty)
  | .ioError =>
      (none, reset_i2c (logError "Could not get humidity readings. Resetting i2c." Effects.empty))

/-- `get_gas` (`enviroplus_api.py` lines 82-89). -/
def get_gas (r : BusResult GasReadings) : Option GasReadings × Effects :=
  match r with
  | .ok v => (some v, Effects.empty)
  | .ioError =>
      (none, reset_i2c (logError "Could not get gas readings. Resetting i2c." Effects.empty))

/-- `get_light` (`enviroplus_api.py` lines 91-99): two driver calls
(`get_lux`, `get_proximity`) inside one `try`; a failure of either is
an `IOError` of the whole read. -/
def get_light (r : BusResult LightReadings) : Option LightReadings × Effects :=
  match r with
  | .ok v => (some v, Effects.empty)
  | .ioError =>
      (none,
        reset_i2c (logError "Could not get lux and proximity readings. Resetting i2c." Effects.empty))

/-- Outcome of one `pms5003.read()` call: data, a `ReadTimeoutError`, or an `IOError`. -/
inductive PmsResult
  | ok (d : PmsData)
  | readTimeout
  | ioError
deriving DecidableEq, Repr

/-- `get_particulates` (`enviroplus_api.py` lines 101-111):
`ReadTimeoutError` is logged as a warning with no reset; `IOError` is
logged as an error and resets the bus; only the `else` branch (no
exception) returns the data. -/
def get_particulates (r : PmsResult) : Option PmsData × Effects :=
  match r with
  | .ok d => (some d, Effects.empty)
  | .readTimeout => (none, logWarning "Failed to read PMS5003" Effects.empty)
  | .ioError =>
      (none,
        reset_i2c
          (logError "Could not get particulate matter readings. Resetting i2c." Effects.empty))

/-- `prometheus_client` `Gauge.set(value)`: it computes `float(value)`,
so `None` raises a `TypeError` before the stored value is touched;
otherwise the stored value is replaced.  Returns the stored value
afterwards and whether the call raised. -/
def gaugeSet (old : ℚ) (v : Option ℚ) : ℚ × Bool :=
  match v with
  | some x => (x, false)
  | none => (old, true)

/-- Result of one `read_*` call of the exporter: the gauge values
afterwards, whether an uncaught exception propagated out of the call,
and the effects of the underlying accessor. -/
structure ReadResult (γ : Type) where
  gauges : γ
  raised : Bool
  effects : Effects
deriving DecidableEq, Repr

/-- `read_pressure` (`enviroplus_exporter.py` lines 74-77):
`PRESSURE.set(get_pressure())`.  When the accessor returned `None`,
`Gauge.set` raises and the gauge keeps its old value. -/
def read_pressure (r : BusResult ℚ) (g : ℚ) : ReadResult ℚ :=
  let (p, e) := get_pressure r
  let (g2, raised) := gaugeSet g p
  ⟨g2, raised, e⟩

/-- `read_humidity` (`enviroplus_exporter.py` lines 79-82). -/
def read_humidity (r : BusResult ℚ) (g : ℚ) : ReadResult ℚ :=
  let (h, e) := get_humidity r
  let (g2, raised) := gaugeSet g h
  ⟨g2, raised, e⟩

/-- `read_gas` (`enviroplus_exporter.py` lines 84-95): on a `None`
result the first attribute access `readings.oxidising` raises
(`AttributeError`) before any gauge or histogram is touched. -/
def read_gas (r : BusResult GasReadings) (g : ℚ × ℚ × ℚ) : ReadResult (ℚ × ℚ × ℚ) :=
  match get_gas r with
  | (some rd, e) => ⟨(rd.oxidising, rd.reducing, rd.nh3), false, e⟩
  | (none, e) => ⟨g, true, e⟩

/-- `read_light` (`enviroplus_exporter.py` lines 97-101): on a `None`
result the subscript `light["lux"]` raises (`TypeError`) before any
gauge is touched. -/
def read_light (r : BusResult LightReadings) (g : ℚ × ℚ) : ReadResult (ℚ × ℚ) :=
  match get_light r with
  | (some l, e) => ⟨(l.lux, l.prox), false, e⟩
  | (none, e) => ⟨g, true, e⟩

/-!
Temperature compensation (`enviroplus_api.py` lines 46-62).

`get_cpu_temperature()` reads a fresh CPU-temperature sample each time
it is called; the samples a run produces are modelled as a stream
`ℕ → ℚ`, consumed in order.  One call of `get_temperature` with a
truthy factor calls `get_cpu_temperature()` twice (once inside
`[get_cpu_temperature()] * 5`, once for `cpu_temp`), i.e. it consumes
two stream positions.
-/

/-- The local `cpu_temps` list as it stands at line 57 of one
`get_temperature` call whose two CPU samples were `t1` then `t2`:
`[t1] * 5`, then `cpu_temps[1:] + [t2]`. -/
def cpu_temps (t1 t2 : ℚ) : List ℚ :=
  (List.replicate 5 t1).tail ++ [t2]

/-- `get_temperature(factor)` for a call that starts consuming CPU
samples at stream position `idx`, with raw sensor temperature `raw`.
A zero factor models every falsy Python factor (`0.0`, `False`,
`None`). -/
def get_temperature (stream : ℕ → ℚ) (idx : ℕ) (factor raw : ℚ) : ℚ :=
  if factor ≠ 0 then
    let w := cpu_temps (stream idx) (stream (idx + 1))
    let avg_cpu_temp := w.sum / (w.length : ℚ)
    raw - ((avg_cpu_temp - raw) / factor)
  else raw

/-- The `cpu_temps` window as it stands at the end of the `k`-th
(0-based) of a run of consecutive `get_temperature` calls with truthy
factor: call `k` consumes stream positions `2*k` and `2*k + 1`. -/
def windowAfterCall (stream : ℕ → ℚ) (k : ℕ) : List ℚ :=
  cpu_temps (stream (2 * k)) (stream (2 * k + 1))

/-- The `n` most recently consumed CPU samples once `total` samples
have been consumed (most recent last): stream positions
`total - n, ..., total - 1`. -/
def recentSamples (stream : ℕ → ℚ) (total n : ℕ) : List ℚ :=
  (List.range n).map fun i => stream (total - n + i)

/-!
Particulate metrics (`enviroplus_exporter.py` lines 103-113).

A gauge is its current value; a histogram is the list of values it has
observed so far (`Histogram.observe(v)` appends `v`; bucket counting
is a pure function of this list and is not needed by the claims).
-/

/-- The particulate gauges and histograms of the metrics registry. -/
structure PmMetrics where
  pm1Gauge : ℚ
  pm25Gauge : ℚ
  pm10Gauge : ℚ
  pm1Hist : List ℚ
  pm25Hist : List ℚ
  pm10Hist : List ℚ
deriving DecidableEq, Repr

/-- `read_particulates` for a successful sample `d` (the nonempty
result of `get_particulates`): gauges are set to the cumulative masses,
the PM2.5 and PM10 histograms observe the band differences. -/
def read_particulates (d : PmsData) (m : PmMetrics) : PmMetrics :=
  { m with
    pm1Gauge := d.pm1
    pm25Gauge := d.pm25
    pm10Gauge := d.pm10
    pm1Hist := m.pm1Hist ++ [d.pm1]
    pm25Hist := m.pm25Hist ++ [d.pm25 - d.pm1]
    pm10Hist := m.pm10Hist ++ [d.pm10 - d.pm25] }

/-!
Main poll loop (`enviroplus_exporter.py` lines 253-262): each
iteration invokes `read_temperature`, `read_pressure`,
`read_humidity`, `read_light`, and, only when `args.enviro` is falsy,
also `read_gas` and `read_particulates`.  An iteration is modelled by
the list of sensor accessors it invokes, in order.
-/

/-- The six sensor accessors of the access layer. -/
inductive Accessor
  | temperature
  | pressure
  | humidity
  | light
  | gasSensor
  | particulates
deriving DecidableEq, Repr

/-- Accessors invoked by one iteration of the main poll loop, given
the truthiness of the `--enviro` flag. -/
def pollIteration (enviro : Bool) : List Accessor :=
  [Accessor.temperature, Accessor.pressure, Accessor.humidity, Accessor.light] ++
    (if !enviro then [Accessor.gasSensor, Accessor.particulates] else [])

/-- The first `n` iterations of the main poll loop, as the list of
per-iteration accessor traces.  `args.enviro` is parsed once at
startup and never changes, so every iteration sees the same flag. -/
def pollTrace (enviro : Bool) (n : ℕ) : List (List Accessor) :=
  List.replicate n (pollIteration enviro)

/-!
Luftdaten forwarder (`enviroplus_exporter.py` lines 149-206).
-/

/-- The gauge snapshot taken by `collect_all_data()`; only the five
fields `post_to_luftdaten` uses are modelled. -/
structure SensorData where
  temperature : ℚ
  pressure : ℚ
  humidity : ℚ
  pm25 : ℚ
  pm10 : ℚ
deriving DecidableEq, Repr

/-- A value of the `values` dict: the pm fields hold the raw float,
the environmental fields hold the float formatted with
`"\x7b:.2f\x7d".format` (formatting itself is opaque; only which
number was formatted matters to the claims). -/
inductive LdValue
  | raw (v : ℚ)
  | formatted (v : ℚ)
deriving DecidableEq, Repr

/-- The `values` dict built at lines 156-161, in insertion order. -/
def luftdatenValues (s : SensorData) : List (String × LdValue) :=
  [("P2", LdValue.raw s.pm25),
   ("P1", LdValue.raw s.pm10),
   ("temperature", LdValue.formatted s.temperature),
   ("pressure", LdValue.formatted (s.pressure * 100)),
   ("humidity", LdValue.formatted s.humidity)]

/-- One HTTP POST to the Luftdaten push endpoint: the JSON body fields
and the identifying headers. -/
structure LdPost where
  software_version : String
  sensordatavalues : List (String × LdValue)
  xPin : String
  xSensor : String
deriving DecidableEq, Repr

/-- Python `s.startswith(p)`: `p`, as a character sequence, is a
prefix of `s`. -/
def pyStartsWith (s p : String) : Bool :=
  p.data.isPrefixOf s.data

/-- Python `s.split(c)` for a one-character separator, over character lists. -/
def splitOnChar (c : Char) : List Char → List (List Char)
  | [] => [[]]
  | x :: xs =>
      match splitOnChar c xs with
      | [] => [[]]
      | h :: t => if x = c then [] :: h :: t else (x :: h) :: t

/-- Python `s.strip()`: whitespace removed from both ends. -/
def pyStrip (s : String) : String :=
  ⟨(((s.data.dropWhile Char.isWhitespace).reverse.dropWhile Char.isWhitespace).reverse)⟩

/-- One cycle of the `post_to_luftdaten` loop body (lines 154-191):
one snapshot, split by `startswith('P')` into pm fields and the rest,
then two POSTs (pin 1 with the pm fields, pin 11 with the rest), both
under the same sensor UID. -/
def post_to_luftdaten_cycle (uid : String) (s : SensorData) : LdPost × LdPost :=
  let values := luftdatenValues s
  let pm_values := values.filter fun i => pyStartsWith i.1 "P"
  let temperature_values := values.filter fun i => !pyStartsWith i.1 "P"
  (⟨"enviro-plus 0.0.1", pm_values, "1", uid⟩,
   ⟨"enviro-plus 0.0.1", temperature_values, "11", uid⟩)

/-- `get_serial_number` (lines 201-206): the first line of
`/proc/cpuinfo` whose first six characters are `Serial`
(`line[0:6] == 'Serial'`), split on `:`, second piece, stripped;
`None` when no line matches. -/
def get_serial_number (lines : List String) : Option String :=
  (lines.find? fun l => l.data.take 6 = "Serial".data).map fun l =>
    pyStrip ⟨(splitOnChar ':' l.data).getD 1 []⟩

/-- The POSTs made by the first `n` cycles of `post_to_luftdaten`:
the UID `raspi- + serial` is computed once, before the loop, and every
cycle reuses it. -/
def post_to_luftdaten_run (serial : String) (snapshots : List SensorData) :
    List (LdPost × LdPost) :=
  snapshots.map (post_to_luftdaten_cycle ("raspi-" ++ serial))

/-!
Factor selection (`enviroplus_exporter.py` lines 66 and 234):
`ENVIROPLUS_FACTOR = float(os.getenv('ENVIROPLUS_FACTOR', 0)) or False`
and `factor = args.factor or ENVIROPLUS_FACTOR`.  The environment
variable is modelled by its parsed float value (`none` when unset);
`args.factor` is `none` when the flag is omitted.
-/

/-- A Python value that is either a float or `False`. -/
inductive PyFactor
  | num (q : ℚ)
  | pyFalse
deriving DecidableEq, Repr

/-- Python truthiness of such a value: `False` and `0.0` are falsy. -/
def PyFactor.truthy : PyFactor → Bool
  | .num q => q ≠ 0
  | .pyFalse => false

/-- The float `get_temperature`'s `if factor:` effectively sees
(`False` behaves exactly like `0.0` there). -/
def PyFactor.toRat : PyFactor → ℚ
  | .num q => q
  | .pyFalse => 0

/-- `ENVIROPLUS_FACTOR`: the parsed environment value (defaulting to
`0`), with `x or False` collapsing a zero parse to `False`. -/
def ENVIROPLUS_FACTOR (env : Option ℚ) : PyFactor :=
  let f := env.getD 0
  if f ≠ 0 then PyFactor.num f else PyFactor.pyFalse

/-- `factor = args.factor or ENVIROPLUS_FACTOR`: the CLI float wins
iff it is truthy (present and nonzero). -/
def effectiveFactor (cliFactor : Option ℚ) (env : Option ℚ) : PyFactor :=
  match cliFactor with
  | some c => if c ≠ 0 then PyFactor.num c else ENVIROPLUS_FACTOR env
  | none => ENVIROPLUS_FACTOR env

/-!
Helper lemmas shared by the theorems below.
-/

/-- The `cpu_temps` window has 5 elements. -/
theorem cpu_temps_length (t1 t2 : ℚ) : (cpu_temps t1 t2).length = 5 := rfl

/-- `get_temperature` with a nonzero factor, written with the window's
mean spelled out as `sum / 5`. -/
theorem get_temperature_of_ne_zero (stream : ℕ → ℚ) (idx : ℕ) (factor raw : ℚ)
    (h : factor ≠ 0) :
    get_temperature stream idx factor raw =
      raw - (((cpu_temps (stream idx) (stream (idx + 1))).sum / 5 - raw) / factor) := by
  simp only [get_temperature, if_pos h, cpu_temps_length]
  norm_num

/-!
The claims.
-/

/-- C1: a bus-level `IOError` during a pressure, humidity, gas, or
light read produces exactly one log line, at error level, invokes
`reset_i2c` exactly once, and leaves every gauge of that sensor at the
value it held before the cycle (the `None` result makes the subsequent
gauge update raise before the stored value is touched, and the read is
not retried). -/
theorem C1_bus_failure_handling (gp gh gox gred gnh glux gprox : ℚ) :
    ((read_pressure BusResult.ioError gp).gauges = gp ∧
      (read_pressure BusResult.ioError gp).effects.resets = 1 ∧
      (read_pressure BusResult.ioError gp).effects.logs.map LogEntry.level = [LogLevel.error]) ∧
    ((read_humidity BusResult.ioError gh).gauges = gh ∧
      (read_humidity BusResult.ioError gh).effects.resets = 1 ∧
      (read_humidity BusResult.ioError gh).effects.logs.map LogEntry.level = [LogLevel.error]) ∧
    ((read_gas BusResult.ioError (gox, gred, gnh)).gauges = (gox, gred, gnh) ∧
      (read_gas BusResult.ioError (gox, gred, gnh)).effects.resets = 1 ∧
      (read_gas BusResult.ioError (gox, gred, gnh)).effects.logs.map LogEntry.level =
        [LogLevel.error]) ∧
    ((read_light BusResult.ioError (glux, gprox)).gauges = (glux, gprox) ∧
      (read_light BusResult.ioError (glux, gprox)).effects.resets = 1 ∧
      (read_light BusResult.ioError (glux, gprox)).effects.logs.map LogEntry.level =
        [LogLevel.error]) :=
  ⟨⟨rfl, rfl, rfl⟩, ⟨rfl, rfl, rfl⟩, ⟨rfl, rfl, rfl⟩, ⟨rfl, rfl, rfl⟩⟩

/-- C2 counterexample: with CPU samples `0, 1, 2, ...`, the window at
the end of the 5th consecutive call is `[8, 8, 8, 8, 9]`, while the 5
most recently sampled CPU temperatures are `[5, 6, 7, 8, 9]` — not
even equal as multisets.  The window is a local variable rebuilt from
scratch by every call, so it never persists across calls. -/
theorem C2_counterexample :
    windowAfterCall (fun i => (i : ℚ)) 4 = [8, 8, 8, 8, 9] ∧
    recentSamples (fun i => (i : ℚ)) 10 5 = [5, 6, 7, 8, 9] ∧
    (windowAfterCall (fun i => (i : ℚ)) 4 : Multiset ℚ) ≠
      (recentSamples (fun i => (i : ℚ)) 10 5 : Multiset ℚ) := by
  have h1 : windowAfterCall (fun i => (i : ℚ)) 4 = [8, 8, 8, 8, 9] := by
    simp [windowAfterCall, cpu_temps, List.replicate]
  have h2 : recentSamples (fun i => (i : ℚ)) 10 5 = [5, 6, 7, 8, 9] := by
    norm_num [recentSamples, List.range_succ]
  refine ⟨h1, h2, ?_⟩
  rw [h1, h2]
  decide

/-- C2 amended: the window does not persist across calls; each call
with a truthy factor rebuilds it as four copies of the first CPU
sample that call reads followed by the second, so after any number of
consecutive calls it holds only the last call's two samples. -/
theorem C2_window_rebuilt_each_call (stream : ℕ → ℚ) (k : ℕ) :
    windowAfterCall stream k =
      List.replicate 4 (stream (2 * k)) ++ [stream (2 * k + 1)] := rfl

/-- C3: for every factor > 0, `get_temperature` returns
`raw - ((mean_cpu - raw) / factor)` where `mean_cpu` is the arithmetic
mean of the 5-element window the call built. -/
theorem C3_compensation_formula (stream : ℕ → ℚ) (idx : ℕ) (factor raw : ℚ)
    (h : 0 < factor) :
    get_temperature stream idx factor raw =
      raw - (((cpu_temps (stream idx) (stream (idx + 1))).sum / 5 - raw) / factor) :=
  get_temperature_of_ne_zero stream idx factor raw (ne_of_gt h)

/-- Witness for C3 at `stream = const 30`, `factor = 2`, `raw = 20`. -/
theorem C3_compensation_formula_witness :
    (0 : ℚ) < 2 ∧
    get_temperature (fun _ => 30) 0 2 20 =
      20 - (((cpu_temps 30 30).sum / 5 - 20) / 2) :=
  ⟨by norm_num, C3_compensation_formula (fun _ => 30) 0 2 20 (by norm_num)⟩

/-- C4: a zero factor (and the factor obtained when neither the CLI
flag nor the environment variable is set) disables compensation:
`get_temperature` returns the raw reading unchanged. -/
theorem C4_zero_factor_returns_raw (stream : ℕ → ℚ) (idx : ℕ) (raw : ℚ) :
    get_temperature stream idx 0 raw = raw ∧
    get_temperature stream idx (effectiveFactor none none).toRat raw = raw := by
  constructor <;>
    simp [get_temperature, effectiveFactor, ENVIROPLUS_FACTOR, PyFactor.toRat]

/-- C5: for a fixed raw reading and a fixed window whose mean exceeds
`raw`, a strictly larger positive factor gives a strictly smaller
correction magnitude. -/
theorem C5_larger_factor_weaker_correction (stream : ℕ → ℚ) (idx : ℕ) (raw f1 f2 : ℚ)
    (havg : raw < (cpu_temps (stream idx) (stream (idx + 1))).sum / 5)
    (h1 : 0 < f1) (h12 : f1 < f2) :
    |get_temperature stream idx f2 raw - raw| <
      |get_temperature stream idx f1 raw - raw| := by
  have h2 : 0 < f2 := h1.trans h12
  rw [get_temperature_of_ne_zero stream idx f2 raw (ne_of_gt h2),
    get_temperature_of_ne_zero stream idx f1 raw (ne_of_gt h1)]
  have hA : 0 < (cpu_temps (stream idx) (stream (idx + 1))).sum / 5 - raw :=
    sub_pos.mpr havg
  rw [sub_sub_cancel_left, sub_sub_cancel_left, abs_neg, abs_neg,
    abs_of_pos (div_pos hA h2), abs_of_pos (div_pos hA h1)]
  exact (div_lt_div_iff_of_pos_left hA h2 h1).mpr h12

/-- Witness for C5 at `stream = const 10`, `raw = 0`, `f1 = 1`, `f2 = 2`. -/
theorem C5_larger_factor_weaker_correction_witness :
    ((0 : ℚ) < (cpu_temps 10 10).sum / 5 ∧ (0 : ℚ) < 1 ∧ (1 : ℚ) < 2) ∧
    |get_temperature (fun _ => 10) 0 2 0 - 0| <
      |get_temperature (fun _ => 10) 0 1 0 - 0| :=
  ⟨⟨by norm_num [cpu_temps, List.replicate], by norm_num, by norm_num⟩,
    C5_larger_factor_weaker_correction (fun _ => 10) 0 0 1 2
      (by norm_num [cpu_temps, List.replicate]) (by norm_num) (by norm_num)⟩

/-- C6: a successful particulate sample sets the PM1/PM25/PM10 gauges
to the raw cumulative masses, while the PM1 histogram observes the raw
PM1 mass and the PM2.5 and PM10 histograms observe the band
differences `pm2.5 - pm1` and `pm10 - pm2.5`. -/
theorem C6_particulate_gauges_and_histograms (d : PmsData) (m : PmMetrics) :
    (read_particulates d m).pm1Gauge = d.pm1 ∧
    (read_particulates d m).pm25Gauge = d.pm25 ∧
    (read_particulates d m).pm10Gauge = d.pm10 ∧
    (read_particulates d m).pm1Hist = m.pm1Hist ++ [d.pm1] ∧
    (read_particulates d m).pm25Hist = m.pm25Hist ++ [d.pm25 - d.pm1] ∧
    (read_particulates d m).pm10Hist = m.pm10Hist ++ [d.pm10 - d.pm25] :=
  ⟨rfl, rfl, rfl, rfl, rfl, rfl⟩

/-- C7: with the `--enviro` flag truthy, no iteration of the main poll
loop ever invokes the gas or particulate accessor, across any number
of cycles, while temperature, pressure, humidity and light are read in
every cycle. -/
theorem C7_enviro_flag_skips_gas_and_particulates (n : ℕ) (cycle : List Accessor)
    (hc : cycle ∈ pollTrace true n) :
    Accessor.gasSensor ∉ cycle ∧ Accessor.particulates ∉ cycle ∧
    Accessor.temperature ∈ cycle ∧ Accessor.pressure ∈ cycle ∧
    Accessor.humidity ∈ cycle ∧ Accessor.light ∈ cycle := by
  have h := List.eq_of_mem_replicate hc
  subst h
  decide

/-- Witness for C7 with a one-cycle trace. -/
theorem C7_enviro_flag_skips_gas_and_particulates_witness :
    pollIteration true ∈ pollTrace true 1 ∧
    (Accessor.gasSensor ∉ pollIteration true ∧
      Accessor.particulates ∉ pollIteration true ∧
      Accessor.temperature ∈ pollIteration true ∧
      Accessor.pressure ∈ pollIteration true ∧
      Accessor.humidity ∈ pollIteration true ∧
      Accessor.light ∈ pollIteration true) :=
  ⟨by decide, C7_enviro_flag_skips_gas_and_particulates 1 (pollIteration true) (by decide)⟩

/-- C8: a particulate read-timeout is a soft failure: exactly one log
line, at warning level, no `reset_i2c` invocation, and no value for
the cycle; only an `IOError` reaches the reset path (and a successful
read resets nothing). -/
theorem C8_particulate_timeout_soft_failure (d : PmsData) :
    (get_particulates PmsResult.readTimeout).1 = none ∧
    (get_particulates PmsResult.readTimeout).2.logs.map LogEntry.level =
      [LogLevel.warning] ∧
    (get_particulates PmsResult.readTimeout).2.resets = 0 ∧
    (get_particulates PmsResult.ioError).2.resets = 1 ∧
    (get_particulates PmsResult.ioError).2.logs.map LogEntry.level = [LogLevel.error] ∧
    (get_particulates (PmsResult.ok d)).2.resets = 0 :=
  ⟨rfl, rfl, rfl, rfl, rfl, rfl⟩

/-- C9: each Luftdaten push cycle takes one snapshot and makes exactly
two POSTs: pin 1 carrying only the particulate fields `P2`, `P1` (raw
pm2.5 and pm10 gauge values) and pin 11 carrying only temperature,
pressure and humidity, both under the UID `raspi-` + hardware serial
(parsed once from `/proc/cpuinfo` and reused by every cycle) and the
fixed software-version string. -/
theorem C9_luftdaten_two_posts (serial : String) (s : SensorData)
    (snapshots : List SensorData) :
    ((post_to_luftdaten_cycle ("raspi-" ++ serial) s).1.sensordatavalues =
        [("P2", LdValue.raw s.pm25), ("P1", LdValue.raw s.pm10)] ∧
      (post_to_luftdaten_cycle ("raspi-" ++ serial) s).2.sensordatavalues =
        [("temperature", LdValue.formatted s.temperature),
         ("pressure", LdValue.formatted (s.pressure * 100)),
         ("humidity", LdValue.formatted s.humidity)] ∧
      (post_to_luftdaten_cycle ("raspi-" ++ serial) s).1.xPin = "1" ∧
      (post_to_luftdaten_cycle ("raspi-" ++ serial) s).2.xPin = "11" ∧
      (post_to_luftdaten_cycle ("raspi-" ++ serial) s).1.xSensor = "raspi-" ++ serial ∧
      (post_to_luftdaten_cycle ("raspi-" ++ serial) s).2.xSensor = "raspi-" ++ serial ∧
      (post_to_luftdaten_cycle ("raspi-" ++ serial) s).1.software_version =
        "enviro-plus 0.0.1" ∧
      (post_to_luftdaten_cycle ("raspi-" ++ serial) s).2.software_version =
        "enviro-plus 0.0.1") ∧
    post_to_luftdaten_run serial snapshots =
      snapshots.map (post_to_luftdaten_cycle ("raspi-" ++ serial)) ∧
    get_serial_number ["processor\t: 0", "Serial\t\t: 0000000012345678"] =
      some "0000000012345678" :=
  ⟨⟨rfl, rfl, rfl, rfl, rfl, rfl, rfl, rfl⟩, rfl, rfl⟩

/-- C10: the effective factor is chosen by Python truthiness fallback:
an omitted or zero CLI factor falls back to `ENVIROPLUS_FACTOR`, so a
CLI factor of 0 cannot disable compensation while the environment
variable is nonzero; an environment value parsing to 0 is coerced to
`False`, and that factor makes `get_temperature` return the raw value. -/
theorem C10_factor_truthiness_fallback (v : ℚ) (env : Option ℚ) (stream : ℕ → ℚ)
    (idx : ℕ) (raw : ℚ) (hv : v ≠ 0) :
    effectiveFactor none env = ENVIROPLUS_FACTOR env ∧
    effectiveFactor (some 0) env = ENVIROPLUS_FACTOR env ∧
    effectiveFactor (some 0) (some v) = PyFactor.num v ∧
    (effectiveFactor (some 0) (some v)).truthy = true ∧
    ENVIROPLUS_FACTOR (some 0) = PyFactor.pyFalse ∧
    get_temperature stream idx (ENVIROPLUS_FACTOR (some 0)).toRat raw = raw := by
  refine ⟨rfl, by simp [effectiveFactor], ?_, ?_, ?_, ?_⟩
  · simp [effectiveFactor, ENVIROPLUS_FACTOR, hv]
  · simp [effectiveFactor, ENVIROPLUS_FACTOR, hv, PyFactor.truthy]
  · simp [ENVIROPLUS_FACTOR]
  · simp [ENVIROPLUS_FACTOR, PyFactor.toRat, get_temperature]

/-- Witness for C10 at CLI factor `0`, environment factor `3`, raw reading `7`. -/
theorem C10_factor_truthiness_fallback_witness :
    (3 : ℚ) ≠ 0 ∧
    (effectiveFactor none (some 3) = ENVIROPLUS_FACTOR (some 3) ∧
      effectiveFactor (some 0) (some 3) = ENVIROPLUS_FACTOR (some 3) ∧
      effectiveFactor (some 0) (some 3) = PyFactor.num 3 ∧
      (effectiveFactor (some 0) (some 3)).truthy = true ∧
      ENVIROPLUS_FACTOR (some 0) = PyFactor.pyFalse ∧
      get_temperature (fun _ => 50) 0 (ENVIROPLUS_FACTOR (some 0)).toRat 7 = 7) :=
  ⟨by norm_num,
    C10_factor_truthiness_fallback 3 (some 3) (fun _ => 50) 0 7 (by norm_num)⟩
